import Mathlib

/-
Verification of the token-service core of the tokens-generator repository.

The development shallowly embeds the pure logic of
  src/tokens/token.service.ts   (generateTokenString, calculateExpiryDate,
                                 isTokenExpired, serializeToken, createToken,
                                 getActiveTokensForUser),
  src/tokens/token.validation.ts (createTokenSchema),
  src/lib/auth.ts                (validateApiKey), and
  src/tokens/token.controller.ts (createTokenController).

Timestamps are modelled as integer milliseconds since the Unix epoch on a
UTC clock (the JavaScript Date value).  The store (Prisma/PostgreSQL) is
modelled as a list of Token records threaded explicitly; randomness
(crypto.randomUUID) and the two wall clocks involved in a create (the
service's `new Date()` and the database's CURRENT_TIMESTAMP default for
createdAt) are passed as explicit parameters.
-/

/-- A persisted token record, matching the Token interface of
src/tokens/token.type.ts and the `tokens` table of the initial migration:
`id`, `token`, `userId`, `scopes TEXT[]`, `createdAt TIMESTAMP(3)`,
`expiresAt TIMESTAMP(3)`.  Timestamps are epoch milliseconds. -/
structure Token where
  id : String
  token : String
  userId : String
  scopes : List String
  createdAt : Int
  expiresAt : Int
deriving DecidableEq

/-- The wire form of a token (TokenResponse of token.type.ts): both
timestamps rendered as strings. -/
structure TokenResponse where
  id : String
  token : String
  userId : String
  scopes : List String
  createdAt : String
  expiresAt : String
deriving DecidableEq

/-- generateTokenString of token.service.ts: `token_${randomUUID()}`.
The value produced by crypto.randomUUID is passed in as the argument
`uuid`; the function itself only prepends the fixed prefix. -/
def generateTokenString (uuid : String) : String :=
  "token_" ++ uuid

/-- The minutes field of a UTC clock reading `t` (epoch milliseconds):
JavaScript Date.getMinutes on a process running in UTC. -/
def getMinutes (t : Int) : Int :=
  t % 3600000 / 60000

/-- JavaScript Date.setMinutes v on a UTC clock: replace the minutes field
by `v`, keeping seconds and milliseconds and carrying any overflow of `v`
into the hours/days, which on epoch milliseconds is exactly
`t - getMinutes t * 60000 + v * 60000`. -/
def setMinutes (t v : Int) : Int :=
  t - getMinutes t * 60000 + v * 60000

/-- calculateExpiryDate of token.service.ts:
`const expiresAt = new Date(); expiresAt.setMinutes(expiresAt.getMinutes() + expiresInMinutes)`.
The current clock reading is the explicit argument `now`. -/
def calculateExpiryDate (now : Int) (expiresInMinutes : Int) : Int :=
  setMinutes now (getMinutes now + expiresInMinutes)

/-- isTokenExpired of token.service.ts: `new Date() > expiresAt`.
The current clock reading is the explicit argument `now`. -/
def isTokenExpired (expiresAt now : Int) : Bool :=
  decide (expiresAt < now)

/-- Proleptic-Gregorian civil date (what JavaScript Date exposes through
getUTCFullYear / getUTCMonth / getUTCDate). -/
structure Civil where
  year : Nat
  month : Nat
  day : Nat
deriving DecidableEq

/-- Civil date of day number `z` (days since 1970-01-01) in the proleptic
Gregorian calendar, the calendar used by JavaScript Date for its UTC
accessors.  Standard era decomposition: shift to an era origin of
0000-03-01, split into 400-year eras of 146097 days, then century /
four-year / year blocks (clamped at 3 so the long leap day lands in the
last block), then month and day from the day-of-March-year. -/
def civilFromDays (z : Nat) : Civil :=
  let zz := z + 719468
  let era := zz / 146097
  let doe := zz % 146097
  let cent := min 3 (doe / 36524)
  let rem := doe - cent * 36524
  let quad := rem / 1461
  let rem2 := rem % 1461
  let yq := min 3 (rem2 / 365)
  let doy := rem2 - yq * 365
  let yoe := cent * 100 + quad * 4 + yq
  let y := yoe + era * 400
  let mp := (5 * doy + 2) / 153
  let d := doy - (153 * mp + 2) / 5 + 1
  let m := if mp < 10 then mp + 3 else mp - 9
  ⟨if m ≤ 2 then y + 1 else y, m, d⟩

/-- Day number (days since 1970-01-01) of a proleptic-Gregorian civil
date; the inverse direction used when parsing a rendered timestamp. -/
def daysFromCivil (c : Civil) : Nat :=
  let y := if c.month ≤ 2 then c.year - 1 else c.year
  let era := y / 400
  let yoe := y - era * 400
  let mp := if c.month > 2 then c.month - 3 else c.month + 9
  let doy := (153 * mp + 2) / 5 + c.day - 1
  let doe := yoe * 365 + yoe / 4 - yoe / 100 + doy
  era * 146097 + doe - 719468

/-- The decimal digit character for `n` (0–9). -/
def dChar (n : Nat) : Char :=
  match n with
  | 0 => '0' | 1 => '1' | 2 => '2' | 3 => '3' | 4 => '4'
  | 5 => '5' | 6 => '6' | 7 => '7' | 8 => '8' | _ => '9'

/-- The numeric value of a decimal digit character. -/
def dVal (c : Char) : Nat :=
  match c with
  | '0' => 0 | '1' => 1 | '2' => 2 | '3' => 3 | '4' => 4
  | '5' => 5 | '6' => 6 | '7' => 7 | '8' => 8 | _ => 9

/-- Four-digit zero-padded decimal rendering. -/
def pad4 (n : Nat) : List Char :=
  [dChar (n / 1000 % 10), dChar (n / 100 % 10), dChar (n / 10 % 10), dChar (n % 10)]

/-- Three-digit zero-padded decimal rendering. -/
def pad3 (n : Nat) : List Char :=
  [dChar (n / 100 % 10), dChar (n / 10 % 10), dChar (n % 10)]

/-- Two-digit zero-padded decimal rendering. -/
def pad2 (n : Nat) : List Char :=
  [dChar (n / 10 % 10), dChar (n % 10)]

/-- JavaScript Date.prototype.toISOString on a nonnegative epoch-millisecond
value whose year is at most 9999: the fixed 24-character form
YYYY-MM-DDTHH:MM:SS.mmmZ (date, time, UTC marker, millisecond precision). -/
def isoStringOfMillis (t : Nat) : String :=
  let c := civilFromDays (t / 86400000)
  let hour := t % 86400000 / 3600000
  let minute := t % 3600000 / 60000
  let second := t % 60000 / 1000
  let ms := t % 1000
  String.mk (pad4 c.year ++ '-' :: pad2 c.month ++ '-' :: pad2 c.day ++
    'T' :: pad2 hour ++ ':' :: pad2 minute ++ ':' :: pad2 second ++ '.' :: pad3 ms ++ ['Z'])

/-- Parse a 24-character ISO-8601 UTC timestamp with millisecond precision
(YYYY-MM-DDTHH:MM:SS.mmmZ) back to epoch milliseconds; any other shape is
rejected. -/
def parseIsoMillis (s : String) : Option Nat :=
  match s.data with
  | [y1, y2, y3, y4, '-', m1, m2, '-', d1, d2, 'T',
     h1, h2, ':', n1, n2, ':', s1, s2, '.', f1, f2, f3, 'Z'] =>
    let year := 1000 * dVal y1 + 100 * dVal y2 + 10 * dVal y3 + dVal y4
    let month := 10 * dVal m1 + dVal m2
    let day := 10 * dVal d1 + dVal d2
    let hour := 10 * dVal h1 + dVal h2
    let minute := 10 * dVal n1 + dVal n2
    let second := 10 * dVal s1 + dVal s2
    let ms := 100 * dVal f1 + 10 * dVal f2 + dVal f3
    some (daysFromCivil ⟨year, month, day⟩ * 86400000 +
      hour * 3600000 + minute * 60000 + second * 1000 + ms)
  | _ => none

/-- Date.prototype.toISOString on an integer Date value, for dates from
1970-01-01 up to year 9999 (the system only ever renders store timestamps,
which lie in this range). -/
def toISOString (t : Int) : String :=
  isoStringOfMillis t.toNat

/-- Parsing an ISO-8601 UTC millisecond timestamp back to an integer Date
value. -/
def parseISOString (s : String) : Option Int :=
  (parseIsoMillis s).map Int.ofNat

/-- serializeToken of token.service.ts: pass id, token, userId, scopes
through unchanged and render both timestamps with toISOString. -/
def serializeToken (t : Token) : TokenResponse :=
  { id := t.id
    token := t.token
    userId := t.userId
    scopes := t.scopes
    createdAt := toISOString t.createdAt
    expiresAt := toISOString t.expiresAt }

/-- createToken of token.service.ts: generate the token string, compute
expiresAt from the service clock, and insert the record; the store assigns
`id` and defaults `createdAt` to its own clock (CURRENT_TIMESTAMP in the
migration).  `serviceNow` is the service's `new Date()` reading, `dbNow`
the database clock at insert time, `uuid` the randomUUID draw and `newId`
the store-assigned id.  Returns the created record and the new store. -/
def createToken (userId : String) (scopes : List String) (expiresInMinutes : Int)
    (serviceNow : Int) (uuid : String) (dbNow : Int) (newId : String)
    (store : List Token) : Token × List Token :=
  let token := generateTokenString uuid
  let expiresAt := calculateExpiryDate serviceNow expiresInMinutes
  let created : Token := ⟨newId, token, userId, scopes, dbNow, expiresAt⟩
  (created, store ++ [created])

/-- getActiveTokensForUser of token.service.ts: findMany over the store
with `userId` equal and `expiresAt` strictly greater than `now`, ordered
by `createdAt` descending.  Returns the result and the (unchanged) store. -/
def getActiveTokensForUser (userId : String) (now : Int) (store : List Token) :
    List Token × List Token :=
  let tokens := (store.filter fun r => r.userId == userId && decide (now < r.expiresAt)).mergeSort
      fun a b => decide (b.createdAt ≤ a.createdAt)
  (tokens, store)

/-- A rational with denominator 1; the JavaScript number holding the
integer `n`. -/
def ratInt (n : Int) : Rat :=
  ⟨n, 1, Nat.one_ne_zero, Nat.coprime_one_right _⟩

/-- The JavaScript number 60.5, used as a fractional test input. -/
def sixtyPointFive : Rat :=
  ⟨121, 2, by norm_num, by norm_num⟩

/-- The body of a create request after JSON decoding (CreateTokenRequest
of token.type.ts).  `expiresInMinutes` is a JavaScript number, modelled as
a rational so that fractional inputs are representable. -/
structure CreateTokenInput where
  userId : String
  scopes : List String
  expiresInMinutes : Rat
deriving DecidableEq

/-- createTokenSchema of token.validation.ts as an acceptance predicate:
userId a non-empty string, scopes a non-empty array of non-empty strings,
expiresInMinutes an integer (z .int), strictly positive (z .positive) and
at most 525600 (z .max).  The zod parse succeeds exactly when this returns
true. -/
def createTokenSchema (i : CreateTokenInput) : Bool :=
  decide (1 ≤ i.userId.length) &&
  (decide (1 ≤ i.scopes.length) && i.scopes.all fun s => decide (1 ≤ s.length)) &&
  (decide (i.expiresInMinutes.den = 1) && decide (0 < i.expiresInMinutes) &&
    decide (i.expiresInMinutes ≤ ratInt 525600))

/-- validateApiKey of src/lib/auth.ts.  `presented` is the X-API-Key
header (None when absent), `configured` the API_KEY environment variable
(None when unset).  The source tests `!expectedApiKey`, which is true both
for an unset variable and for the empty string, and otherwise compares
with strict string equality (a missing header compares unequal to any
configured key). -/
def validateApiKey (presented configured : Option String) : Bool :=
  match configured with
  | none => true
  | some k => if k = "" then true else presented == some k

/-- An HTTP response of the controller: status code, error payload (for
401/400/500) and success payload (for 201). -/
structure ApiResponse where
  status : Nat
  error : Option String
  payload : Option TokenResponse
deriving DecidableEq

/-- createTokenController of token.controller.ts.  The gate runs first;
then `request.json()` runs — `body = none` models a body that is not
parseable as JSON, in which case json() rejects and control reaches the
generic catch (the error is not a ZodError), producing 500
"Internal server error".  A parsed body is validated by
createTokenSchema; only that failure (the ZodError) maps to 400
"Validation failed".  A valid body creates the token and returns 201 with
the serialized record. -/
def createTokenController (presented configured : Option String)
    (body : Option CreateTokenInput) (serviceNow : Int) (uuid : String)
    (dbNow : Int) (newId : String) (store : List Token) :
    ApiResponse × List Token :=
  if validateApiKey presented configured then
    match body with
    | none => (⟨500, some "Internal server error", none⟩, store)
    | some b =>
      if createTokenSchema b then
        let result := createToken b.userId b.scopes b.expiresInMinutes.num
          serviceNow uuid dbNow newId store
        (⟨201, none, some (serializeToken result.1)⟩, result.2)
      else
        (⟨400, some "Validation failed", none⟩, store)
  else
    (⟨401, some "Unauthorized. Valid X-API-Key header required.", none⟩, store)

/-- Lowercase hexadecimal digit, the alphabet of a canonical randomUUID
rendering. -/
def isHexDigit (c : Char) : Bool :=
  ('0' ≤ c && c ≤ '9') || ('a' ≤ c && c ≤ 'f')

/-- Canonical version-4 UUID text: 36 characters in the hyphenated
8-4-4-4-12 grouping, lowercase hexadecimal elsewhere, version nibble '4'
and variant nibble in 8/9/a/b — the format crypto.randomUUID guarantees. -/
def isUuidV4 (l : List Char) : Bool :=
  match l with
  | u1 :: u2 :: u3 :: u4 :: u5 :: u6 :: u7 :: u8 :: '-' ::
    u9 :: u10 :: u11 :: u12 :: '-' :: '4' :: u13 :: u14 :: u15 :: '-' ::
    uv :: u16 :: u17 :: u18 :: '-' ::
    u19 :: u20 :: u21 :: u22 :: u23 :: u24 :: u25 :: u26 :: u27 :: u28 :: u29 :: u30 :: [] =>
    ([u1, u2, u3, u4, u5, u6, u7, u8, u9, u10, u11, u12, u13, u14, u15, u16, u17, u18,
      u19, u20, u21, u22, u23, u24, u25, u26, u27, u28, u29, u30].all isHexDigit) &&
    (uv == '8' || uv == '9' || uv == 'a' || uv == 'b')
  | _ => false

/- Sanity checks of the date model against known JavaScript Date outputs
(the first two values appear in the repository's own test suite). -/
example : isoStringOfMillis 1735725600000 = "2025-01-01T10:00:00.000Z" := by decide
example : isoStringOfMillis 1735729200000 = "2025-01-01T11:00:00.000Z" := by decide
example : civilFromDays 0 = ⟨1970, 1, 1⟩ := by decide
example : civilFromDays 11016 = ⟨2000, 2, 29⟩ := by decide
example : civilFromDays 47540 = ⟨2100, 2, 28⟩ := by decide
example : civilFromDays 2932896 = ⟨9999, 12, 31⟩ := by decide

/-- Core identity of the era decomposition: the day offset of
year-of-era `c * 100 + q * 4 + y` within its era equals the sum of the
century, quadrennial and single-year day counts. -/
theorem yoe_dayoffset_ident (c q y : Nat) (hc : c ≤ 3) (hq : q ≤ 24) (hy : y ≤ 3) :
    (c * 100 + q * 4 + y) * 365 + (c * 100 + q * 4 + y) / 4 - (c * 100 + q * 4 + y) / 100 =
      c * 36524 + q * 1461 + y * 365 := by omega

/-- Facts about the month/day encoding of a day-of-March-year `doy`:
the month offset table value is recoverable, months past February start
at day 306, and days stay within 1–31. -/
theorem month_day_facts (doy : Nat) (h : doy ≤ 365) :
    (153 * ((5 * doy + 2) / 153) + 2) / 5 ≤ doy ∧ (5 * doy + 2) / 153 ≤ 11 ∧
    (10 ≤ (5 * doy + 2) / 153 ↔ 306 ≤ doy) ∧
    doy - (153 * ((5 * doy + 2) / 153) + 2) / 5 ≤ 30 := by omega

/-- daysFromCivil recomputes the day number from decomposed components. -/
theorem days_assemble (era yoe mp doy m yr dd z : Nat)
    (hm : m = if mp < 10 then mp + 3 else mp - 9)
    (hyr : yr = if m ≤ 2 then yoe + era * 400 + 1 else yoe + era * 400)
    (hdd : dd = doy - (153 * mp + 2) / 5 + 1)
    (hmd : (153 * mp + 2) / 5 ≤ doy)
    (hmp : mp ≤ 11)
    (hyoe : yoe ≤ 399)
    (hsum : era * 146097 + (yoe * 365 + yoe / 4 - yoe / 100 + doy) = z + 719468) :
    daysFromCivil ⟨yr, m, dd⟩ = z := by
  have h2 : (if m ≤ 2 then yr - 1 else yr) = yoe + era * 400 := by
    split_ifs at hyr ⊢ <;> omega
  have h5 : (if m > 2 then m - 3 else m + 9) = mp := by
    subst hm; split_ifs <;> omega
  simp only [daysFromCivil]
  rw [h2, show (yoe + era * 400) / 400 = era from by omega,
    show yoe + era * 400 - era * 400 = yoe from by omega, h5]
  omega

/-- The round trip and field bounds for civilFromDays, phrased over the
named intermediate quantities of its definition. -/
theorem civil_aux (z era doe cent rem quad rem2 yq doy yoe mp m yr dd : Nat) (c : Civil)
    (h1 : era = (z + 719468) / 146097) (h2 : doe = (z + 719468) % 146097)
    (h3 : cent = min 3 (doe / 36524)) (h4 : rem = doe - cent * 36524)
    (h5 : quad = rem / 1461) (h6 : rem2 = rem % 1461)
    (h7 : yq = min 3 (rem2 / 365)) (h8 : doy = rem2 - yq * 365)
    (h9 : yoe = cent * 100 + quad * 4 + yq)
    (h10 : mp = (5 * doy + 2) / 153)
    (h11 : m = if mp < 10 then mp + 3 else mp - 9)
    (h12 : yr = if m ≤ 2 then yoe + era * 400 + 1 else yoe + era * 400)
    (h13 : dd = doy - (153 * mp + 2) / 5 + 1)
    (hc : c = ⟨yr, m, dd⟩)
    (hz : z ≤ 2932896) :
    daysFromCivil c = z ∧ 1970 ≤ c.year ∧ c.year ≤ 9999 ∧
    1 ≤ c.month ∧ c.month ≤ 12 ∧ 1 ≤ c.day ∧ c.day ≤ 31 := by
  have hsplit : era * 146097 + doe = z + 719468 := by
    rw [h1, h2, Nat.mul_comm]; exact Nat.div_add_mod _ _
  have hdoe : doe < 146097 := by rw [h2]; exact Nat.mod_lt _ (by omega)
  have f2 : cent ≤ 3 ∧ cent * 36524 + rem = doe ∧ rem ≤ 36524 := by
    clear h1 h2 h5 h6 h7 h8 h9 h10 h11 h12 h13 hc hz hsplit
    omega
  have f3 : quad * 1461 + rem2 = rem ∧ rem2 < 1461 ∧ quad ≤ 24 := by
    clear h1 h2 h3 h4 h7 h8 h9 h10 h11 h12 h13 hc hz hsplit hdoe
    omega
  have f4 : yq ≤ 3 ∧ yq * 365 + doy = rem2 ∧ doy ≤ 365 := by
    clear h1 h2 h3 h4 h5 h6 h9 h10 h11 h12 h13 hc hz hsplit hdoe f2
    omega
  have f5 : yoe * 365 + yoe / 4 - yoe / 100 = cent * 36524 + quad * 1461 + yq * 365 ∧
      yoe ≤ 399 := by
    have := yoe_dayoffset_ident cent quad yq f2.1 f3.2.2 f4.1
    rw [← h9] at this
    exact ⟨this, by omega⟩
  have f6 := month_day_facts doy f4.2.2
  rw [← h10] at f6
  have f7 : era ≤ 24 := by
    clear h2 h3 h4 h5 h6 h7 h8 h9 h10 h11 h12 h13 hc hsplit hdoe f2 f3 f4 f5 f6
    omega
  have hsum : era * 146097 + (yoe * 365 + yoe / 4 - yoe / 100 + doy) = z + 719468 := by
    clear h1 h2 h3 h4 h5 h6 h7 h8 h9 h10 h11 h12 h13 hc hz hdoe f6 f7
    omega
  subst hc
  refine ⟨days_assemble era yoe mp doy m yr dd z h11 h12 h13 f6.1 f6.2.1 f5.2 hsum,
    ?_, ?_, ?_, ?_, ?_, ?_⟩
  · show 1970 ≤ yr
    clear h1 h2 h3 h4 h5 h6 h7 h8 h9 h10 hdoe f7 h13
    split_ifs at h11 h12 <;> omega
  · show yr ≤ 9999
    clear h1 h2 h3 h4 h5 h6 h7 h8 h9 h10 hdoe h13
    split_ifs at h11 h12 <;> omega
  · show 1 ≤ m
    clear h1 h2 h3 h4 h5 h6 h7 h8 h9 h10 hdoe h12 h13 hsum hsplit f5 f7
    split_ifs at h11 <;> omega
  · show m ≤ 12
    clear h1 h2 h3 h4 h5 h6 h7 h8 h9 h10 hdoe h12 h13 hsum hsplit f5 f7
    split_ifs at h11 <;> omega
  · show 1 ≤ dd
    omega
  · show dd ≤ 31
    clear h1 h2 h3 h4 h5 h6 h7 h8 h9 h10 hdoe h11 h12 hsum hsplit f5 f7
    omega

/-- civilFromDays and daysFromCivil are mutually inverse on the day range
1970-01-01 through 9999-12-31, and the produced fields are in range. -/
theorem civilFromDays_correct (z : Nat) (hz : z ≤ 2932896) :
    daysFromCivil (civilFromDays z) = z ∧
    1970 ≤ (civilFromDays z).year ∧ (civilFromDays z).year ≤ 9999 ∧
    1 ≤ (civilFromDays z).month ∧ (civilFromDays z).month ≤ 12 ∧
    1 ≤ (civilFromDays z).day ∧ (civilFromDays z).day ≤ 31 :=
  civil_aux z _ _ _ _ _ _ _ _ _ _ _ _ _ (civilFromDays z)
    rfl rfl rfl rfl rfl rfl rfl rfl rfl rfl rfl rfl rfl rfl hz

/-- A digit character round-trips through its numeric value. -/
theorem dVal_dChar_mod (n : Nat) : dVal (dChar (n % 10)) = n % 10 := by
  have h : n % 10 < 10 := Nat.mod_lt _ (by omega)
  revert h
  generalize n % 10 = k
  intro h
  interval_cases k <;> rfl

/-- Two-digit decimal reconstruction. -/
theorem digits2 (n : Nat) (h : n ≤ 99) :
    10 * (n / 10 % 10) + n % 10 = n := by omega

/-- Three-digit decimal reconstruction. -/
theorem digits3 (n : Nat) (h : n ≤ 999) :
    100 * (n / 100 % 10) + 10 * (n / 10 % 10) + n % 10 = n := by omega

/-- Four-digit decimal reconstruction. -/
theorem digits4 (n : Nat) (h : n ≤ 9999) :
    1000 * (n / 1000 % 10) + 100 * (n / 100 % 10) + 10 * (n / 10 % 10) + n % 10 = n := by
  omega

/-- Parsing the rendered ISO-8601 string of any epoch-millisecond value
up to the end of year 9999 recovers the value exactly. -/
theorem parseIso_roundtrip (t : Nat) (ht : t < 253402300800000) :
    parseIsoMillis (isoStringOfMillis t) = some t := by
  have hc := civilFromDays_correct (t / 86400000) (by omega)
  simp only [isoStringOfMillis, pad4, pad3, pad2, List.cons_append, List.nil_append]
  simp only [parseIsoMillis, dVal_dChar_mod]
  rw [digits4 _ hc.2.2.1, digits2 _ (by omega : (civilFromDays (t / 86400000)).month ≤ 99),
    digits2 _ (by omega : (civilFromDays (t / 86400000)).day ≤ 99),
    digits2 _ (by omega : t % 86400000 / 3600000 ≤ 99),
    digits2 _ (by omega : t % 3600000 / 60000 ≤ 99),
    digits2 _ (by omega : t % 60000 / 1000 ≤ 99),
    digits3 _ (by omega : t % 1000 ≤ 999)]
  rw [show (⟨(civilFromDays (t / 86400000)).year, (civilFromDays (t / 86400000)).month,
      (civilFromDays (t / 86400000)).day⟩ : Civil) = civilFromDays (t / 86400000) from rfl]
  rw [hc.1]
  have s1 : t % 86400000 / 3600000 * 3600000 + t % 3600000 = t % 86400000 := by omega
  have s2 : t % 3600000 / 60000 * 60000 + t % 60000 = t % 3600000 := by omega
  have s3 : t % 60000 / 1000 * 1000 + t % 1000 = t % 60000 := by omega
  have s4 : t / 86400000 * 86400000 + t % 86400000 = t := by omega
  simp only [Option.some.injEq]
  omega

/-- A canonical UUID rendering is 36 characters long. -/
theorem isUuidV4_length (l : List Char) (h : isUuidV4 l = true) : l.length = 36 := by
  unfold isUuidV4 at h
  split at h
  · rfl
  · simp at h

/-- C1: for every userId, getActiveTokensForUser returns exactly the stored
records whose userId equals the argument and whose expiresAt is strictly
greater than the query-time clock, ordered by createdAt descending (ties in
either order), never an expired record, possibly empty, and without mutating
or deleting any record (the store component of the result is unchanged). -/
theorem getActiveTokensForUser_spec (userId : String) (now : Int) (store : List Token) :
    (getActiveTokensForUser userId now store).2 = store ∧
    (∀ r ∈ (getActiveTokensForUser userId now store).1, r.userId = userId ∧ now < r.expiresAt) ∧
    (getActiveTokensForUser userId now store).1.Perm
      (store.filter fun r => r.userId == userId && decide (now < r.expiresAt)) ∧
    (getActiveTokensForUser userId now store).1.Pairwise
      fun a b => b.createdAt ≤ a.createdAt := by
  refine ⟨rfl, ?_, ?_, ?_⟩
  · intro r hr
    have hperm := List.mergeSort_perm
      (store.filter fun r => r.userId == userId && decide (now < r.expiresAt))
      (fun a b => decide (b.createdAt ≤ a.createdAt))
    have hr' : r ∈ store.filter fun r => r.userId == userId && decide (now < r.expiresAt) :=
      hperm.mem_iff.mp hr
    have := List.of_mem_filter hr'
    simp only [Bool.and_eq_true, beq_iff_eq, decide_eq_true_eq] at this
    exact this
  · exact List.mergeSort_perm _ _
  · have h := @List.sorted_mergeSort Token
      (fun a b : Token => decide (b.createdAt ≤ a.createdAt))
      (fun a b c hab hbc => by
        simp only [decide_eq_true_eq] at *
        exact le_trans hbc hab)
      (fun a b => by
        simp only [Bool.or_eq_true, decide_eq_true_eq]
        exact le_total b.createdAt a.createdAt)
      (store.filter fun r => r.userId == userId && decide (now < r.expiresAt))
    refine h.imp ?_
    intro a b hab
    simpa using hab

/-- C2 counterexample: expiresAt is computed from the service clock while
createdAt is the database clock; with the database clock one second ahead
of the service clock, the persisted record of a 60-minute create has
expiresAt - createdAt of 3599000 ms, not exactly 60 minutes. -/
theorem createToken_exact_duration_cex :
    ¬ ((createToken "user123" ["read", "write"] 60 0 "1b4e28ba-2fa1-4d3b-8a1f-0123456789ab"
          1000 "id1" []).1.expiresAt -
        (createToken "user123" ["read", "write"] 60 0 "1b4e28ba-2fa1-4d3b-8a1f-0123456789ab"
          1000 "id1" []).1.createdAt = 60 * 60000) := by
  decide

/-- C2 amended: the persisted record's expiresAt equals the service's clock
reading at creation plus the requested duration exactly, its createdAt is
the store's insert-time clock reading, and expiresAt - createdAt equals the
requested duration exactly whenever the two clocks agree at creation. -/
theorem createToken_expiry_amended (userId : String) (scopes : List String)
    (m serviceNow : Int) (uuid : String) (dbNow : Int) (newId : String) (store : List Token) :
    (createToken userId scopes m serviceNow uuid dbNow newId store).1.expiresAt =
      serviceNow + m * 60000 ∧
    (createToken userId scopes m serviceNow uuid dbNow newId store).1.createdAt = dbNow ∧
    (dbNow = serviceNow →
      (createToken userId scopes m serviceNow uuid dbNow newId store).1.expiresAt -
        (createToken userId scopes m serviceNow uuid dbNow newId store).1.createdAt =
        m * 60000) := by
  refine ⟨?_, rfl, ?_⟩
  · simp only [createToken, calculateExpiryDate, setMinutes, getMinutes]
    ring
  · intro h
    subst h
    simp only [createToken, calculateExpiryDate, setMinutes, getMinutes]
    ring

/-- C2 witness: with both clocks at 0, a 60-minute create yields
expiresAt - createdAt of exactly 60 minutes. -/
theorem createToken_expiry_amended_witness :
    (createToken "user123" ["read", "write"] 60 0 "1b4e28ba-2fa1-4d3b-8a1f-0123456789ab"
        0 "id1" []).1.expiresAt -
      (createToken "user123" ["read", "write"] 60 0 "1b4e28ba-2fa1-4d3b-8a1f-0123456789ab"
        0 "id1" []).1.createdAt = 60 * 60000 :=
  (createToken_expiry_amended "user123" ["read", "write"] 60 0
    "1b4e28ba-2fa1-4d3b-8a1f-0123456789ab" 0 "id1" []).2.2 rfl

/-- C3: isTokenExpired is true strictly when the clock is past expiresAt:
equality is not expired, one millisecond later is expired, one millisecond
earlier is not. -/
theorem isTokenExpired_boundary (e t : Int) :
    (isTokenExpired e t = true ↔ e < t) ∧
    isTokenExpired e e = false ∧
    isTokenExpired e (e + 1) = true ∧
    isTokenExpired e (e - 1) = false := by
  refine ⟨?_, ?_, ?_, ?_⟩ <;> simp [isTokenExpired] <;> omega

/-- C4: for every clock reading t and positive integer m,
calculateExpiryDate advances t by exactly m minutes, in particular past t. -/
theorem calculateExpiryDate_exact (t m : Int) (hm : 0 < m) :
    calculateExpiryDate t m = t + m * 60000 ∧ t < calculateExpiryDate t m := by
  have h : calculateExpiryDate t m = t + m * 60000 := by
    simp only [calculateExpiryDate, setMinutes, getMinutes]
    ring
  refine ⟨h, ?_⟩
  rw [h]
  omega

/-- C4 witness at t = 0, m = 1. -/
theorem calculateExpiryDate_exact_witness :
    (0 : Int) < 1 ∧
    (calculateExpiryDate 0 1 = 0 + 1 * 60000 ∧ (0 : Int) < calculateExpiryDate 0 1) :=
  ⟨by decide, calculateExpiryDate_exact 0 1 (by decide)⟩

/-- C5: createTokenSchema accepts an input exactly when userId is non-empty,
scopes is a non-empty sequence of non-empty strings, and expiresInMinutes is
an integer with 0 < m ≤ 525600; the stated boundary inputs behave exactly as
claimed (525600 accepted; 525601, 0, -1, 60.5, empty scopes, an empty-string
scope, and an empty userId each rejected). -/
theorem createTokenSchema_spec :
    (∀ i : CreateTokenInput, createTokenSchema i = true ↔
      (1 ≤ i.userId.length ∧ 1 ≤ i.scopes.length ∧ (∀ s ∈ i.scopes, 1 ≤ s.length) ∧
       i.expiresInMinutes.den = 1 ∧ 0 < i.expiresInMinutes ∧
       i.expiresInMinutes ≤ ratInt 525600)) ∧
    createTokenSchema ⟨"user123", ["read"], ratInt 525600⟩ = true ∧
    createTokenSchema ⟨"user123", ["read"], ratInt 525601⟩ = false ∧
    createTokenSchema ⟨"user123", ["read"], ratInt 0⟩ = false ∧
    createTokenSchema ⟨"user123", ["read"], ratInt (-1)⟩ = false ∧
    createTokenSchema ⟨"user123", ["read"], sixtyPointFive⟩ = false ∧
    createTokenSchema ⟨"user123", [], ratInt 60⟩ = false ∧
    createTokenSchema ⟨"user123", ["read", ""], ratInt 60⟩ = false ∧
    createTokenSchema ⟨"", ["read"], ratInt 60⟩ = false := by
  refine ⟨?_, by decide, by decide, by decide, by decide, by decide, by decide,
    by decide, by decide⟩
  intro i
  simp only [createTokenSchema, Bool.and_eq_true, decide_eq_true_eq, List.all_eq_true]
  tauto

/-- C6 counterexample: with the configured key being the empty string (a
configured key on the claim's reading of an optional string), authorization
succeeds even though no key is presented — the claim requires it to fail. -/
theorem validateApiKey_empty_config_cex :
    validateApiKey none (some "") = true ∧ (none : Option String) ≠ some "" := by
  decide

/-- C6 amended: authorization always succeeds when no key or the empty-string
key is configured; when a non-empty key is configured it succeeds exactly when
the presented key is present and equal to it. -/
theorem validateApiKey_amended (p : Option String) (k : String) (hk : k ≠ "") :
    validateApiKey p none = true ∧
    validateApiKey p (some "") = true ∧
    (validateApiKey p (some k) = true ↔ p = some k) := by
  refine ⟨rfl, rfl, ?_⟩
  simp [validateApiKey, hk]

/-- C6 witness at a concrete non-empty key. -/
theorem validateApiKey_amended_witness :
    "secret" ≠ "" ∧
    (validateApiKey (some "secret") none = true ∧
     validateApiKey (some "secret") (some "") = true ∧
     (validateApiKey (some "secret") (some "secret") = true ↔
       (some "secret" : Option String) = some "secret")) :=
  ⟨by decide, validateApiKey_amended (some "secret") "secret" (by decide)⟩

/-- C7: serializeToken passes id, token, userId and scopes through unchanged
and renders both timestamps as ISO-8601 UTC millisecond strings that parse
back to the original instants exactly, for any record whose timestamps lie in
the renderable range (1970-01-01 through year 9999). -/
theorem serializeToken_roundtrip (tok : Token)
    (h1 : 0 ≤ tok.createdAt) (h2 : tok.createdAt < 253402300800000)
    (h3 : 0 ≤ tok.expiresAt) (h4 : tok.expiresAt < 253402300800000) :
    (serializeToken tok).id = tok.id ∧
    (serializeToken tok).token = tok.token ∧
    (serializeToken tok).userId = tok.userId ∧
    (serializeToken tok).scopes = tok.scopes ∧
    parseISOString ((serializeToken tok).createdAt) = some tok.createdAt ∧
    parseISOString ((serializeToken tok).expiresAt) = some tok.expiresAt := by
  refine ⟨rfl, rfl, rfl, rfl, ?_, ?_⟩
  · simp only [serializeToken, toISOString, parseISOString]
    rw [parseIso_roundtrip _ (by omega)]
    simp [Int.toNat_of_nonneg h1]
  · simp only [serializeToken, toISOString, parseISOString]
    rw [parseIso_roundtrip _ (by omega)]
    simp [Int.toNat_of_nonneg h3]

/-- C7 witness at the record used by the repository's own serializeToken
test (2025-01-01T10:00:00.000Z / 2025-01-01T11:00:00.000Z). -/
theorem serializeToken_roundtrip_witness :
    ((0 : Int) ≤ 1735725600000 ∧ (1735725600000 : Int) < 253402300800000 ∧
     (0 : Int) ≤ 1735729200000 ∧ (1735729200000 : Int) < 253402300800000) ∧
    parseISOString ((serializeToken ⟨"test_id", "token_abc123", "user123",
      ["read", "write"], 1735725600000, 1735729200000⟩).createdAt) =
      some 1735725600000 :=
  ⟨⟨by decide, by decide, by decide, by decide⟩,
   (serializeToken_roundtrip ⟨"test_id", "token_abc123", "user123",
      ["read", "write"], 1735725600000, 1735729200000⟩
      (by decide) (by decide) (by decide) (by decide)).2.2.2.2.1⟩

/-- C8: for any canonical version-4 UUID rendering produced by randomUUID,
generateTokenString yields the 6-character prefix "token_" followed by the
36-character identifier (42 characters in all), the suffix is itself the
canonical hyphenated 8-4-4-4-12 version-4 form, and the construction is
injective, so two calls collide exactly when the underlying 122-bit random
identifiers collide. -/
theorem generateTokenString_format (u : String) (hu : isUuidV4 u.data = true) :
    (generateTokenString u).data.take 6 = "token_".data ∧
    (generateTokenString u).data.drop 6 = u.data ∧
    (generateTokenString u).length = 42 ∧
    isUuidV4 ((generateTokenString u).data.drop 6) = true ∧
    ∀ v : String, generateTokenString u = generateTokenString v → u = v := by
  have hdata : (generateTokenString u).data = "token_".data ++ u.data := rfl
  have hlen : u.data.length = 36 := isUuidV4_length u.data hu
  have htake : (generateTokenString u).data.take 6 = "token_".data := by
    rw [hdata, show (6 : Nat) = ("token_".data).length from rfl, List.take_left]
  have hdrop : (generateTokenString u).data.drop 6 = u.data := by
    rw [hdata, show (6 : Nat) = ("token_".data).length from rfl, List.drop_left]
  refine ⟨htake, hdrop, ?_, ?_, ?_⟩
  · show (generateTokenString u).data.length = 42
    rw [hdata]
    simp [hlen]
  · rw [hdrop]; exact hu
  · intro v h
    have h2 : "token_".data ++ u.data = "token_".data ++ v.data := congrArg String.data h
    have h3 := List.append_cancel_left h2
    exact congrArg String.mk h3

/-- C8 witness at a concrete canonical version-4 UUID. -/
theorem generateTokenString_format_witness :
    isUuidV4 ("1b4e28ba-2fa1-4d3b-8a1f-0123456789ab" : String).data = true ∧
    (generateTokenString "1b4e28ba-2fa1-4d3b-8a1f-0123456789ab").length = 42 :=
  ⟨by decide,
   (generateTokenString_format "1b4e28ba-2fa1-4d3b-8a1f-0123456789ab" (by decide)).2.2.1⟩

/-- C9: an empty-string configured key is treated as not configured — the
gate is open for every presented key, including an absent one. -/
theorem validateApiKey_empty_open (p : Option String) :
    validateApiKey p (some "") = true := rfl

/-- C10: once the gate passes, a request body that is not parseable as JSON
is answered 500 with "Internal server error" (the json() rejection is not a
ZodError, so it reaches the generic catch), and a 400 arises exactly from a
parsed body that fails schema validation. -/
theorem createTokenController_parse_error (presented configured : Option String)
    (serviceNow : Int) (uuid : String) (dbNow : Int) (newId : String) (store : List Token)
    (hauth : validateApiKey presented configured = true) :
    (createTokenController presented configured none serviceNow uuid dbNow newId store).1 =
      ⟨500, some "Internal server error", none⟩ ∧
    ∀ body : Option CreateTokenInput,
      ((createTokenController presented configured body serviceNow uuid dbNow
          newId store).1.status = 400 ↔
        ∃ b, body = some b ∧ createTokenSchema b = false) := by
  constructor
  · simp [createTokenController, hauth]
  · intro body
    match body with
    | none => simp [createTokenController, hauth]
    | some b =>
      by_cases hb : createTokenSchema b = true
      · simp [createTokenController, hauth, hb]
      · simp only [Bool.not_eq_true] at hb
        simp [createTokenController, hauth, hb]

/-- C10 witness: with no key configured (open gate), an unparseable body is
answered 500 "Internal server error". -/
theorem createTokenController_parse_error_witness :
    validateApiKey none none = true ∧
    (createTokenController none none none 0 "1b4e28ba-2fa1-4d3b-8a1f-0123456789ab"
        0 "id1" []).1 = ⟨500, some "Internal server error", none⟩ :=
  ⟨by decide,
   (createTokenController_parse_error none none 0 "1b4e28ba-2fa1-4d3b-8a1f-0123456789ab"
      0 "id1" [] (by decide)).1⟩
